import Mathlib

/-!
Verification of the audio speech-presence detection pipeline in
`backend/app/utils/audio_processor.py` (class `AudioPreprocessor`).

Shallow embedding conventions:
* Python floats are modelled as rationals (`ℚ`); the numeric comparisons in the
  decision engine only involve exactly representable thresholds.
* A Python dict that may lack keys is modelled as a structure of `Option`
  fields; `dict.get(k, default)` becomes `Option.getD`.
* Calls into external numeric libraries (librosa feature extraction, scipy
  filtering, the float square root in the RMS computation) are modelled as
  oracle parameters: an `Except String` value for a computation that may raise,
  a plain value for one that cannot.  All control flow, exact arithmetic and
  fault handling of the Python source is embedded directly.
-/

namespace AudioProcessor

/-- Sub-record returned by `_extract_spectral_features` (the full dict). -/
structure SpectralFeatures where
  spectral_centroid : ℚ
  spectral_rolloff : ℚ
  spectral_bandwidth : ℚ
  mfcc_means : List ℚ
  spectral_contrast : List ℚ
deriving DecidableEq

/-- Sub-record returned by `_analyze_temporal_characteristics` (the full dict). -/
structure TemporalFeatures where
  activity_ratio : ℚ
  onset_rate : ℚ
  active_frames : Nat
  total_frames : Nat
deriving DecidableEq

/-- Sub-record returned by `_voice_activity_detection` (the full dict). -/
structure VadResult where
  voice_ratio : ℚ
  voice_frames : Nat
  total_frames : Nat
  energy_threshold : ℚ
deriving DecidableEq

/-- The analysis-results dict built by `_analyze_audio_for_speech`.
`none` in a sub-feature field models the empty dict `{}` that the
corresponding sub-extractor returns when it catches an internal exception
(an empty Python dict is falsy and `.get` on it yields the default). -/
structure AnalysisResults where
  error : Option String
  duration : Option ℚ
  rms_energy : Option ℚ
  max_amplitude : Option ℚ
  zero_crossing_rate : Option ℚ
  spectral_features : Option SpectralFeatures
  temporal_features : Option TemporalFeatures
  vad_results : Option VadResult
deriving DecidableEq

/-- The dict `{'error': e}` produced by the various except-handlers. -/
def errorReport (e : String) : AnalysisResults :=
  { error := some e
    duration := none
    rms_energy := none
    max_amplitude := none
    zero_crossing_rate := none
    spectral_features := none
    temporal_features := none
    vad_results := none }

/-- `AudioPreprocessor._determine_speech_presence` (audio_processor.py:295-354).
Thresholds are inlined from `__init__`: MIN_DURATION = 0.2,
MIN_RMS_THRESHOLD = 0.002, MIN_ACTIVITY_RATIO = 0.15, and the literal 0.1
voice-ratio bound.  The zero-crossing-rate check (lines 320-323) and the
spectral-centroid check (lines 326-332) only log and fall through, so they
do not appear in the returned value. -/
def _determine_speech_presence (r : AnalysisResults) : Bool :=
  if r.error.isSome then true
  else if (r.duration.getD 0) < 1/5 then false
  else if (r.rms_energy.getD 0) < 1/500 then false
  else if ((r.temporal_features.map TemporalFeatures.activity_ratio).getD 0) < 3/20 then false
  else if ((r.vad_results.map VadResult.voice_ratio).getD 0) < 1/10 then false
  else true

/-! ## Waveform loading (`_load_audio_file`, audio_processor.py:76-115) -/

/-- Outcome of the primary `librosa.load` call on a file: either the decoded
sample buffer with its native sample rate, or an exception. -/
inductive LibrosaResult where
  | ok (samples : List ℚ) (rate : Nat)
  | fails
deriving DecidableEq

/-- The `wave`-module view of a file used by the raw-PCM fallback:
sample width in bytes, frame rate, and the raw payload bytes returned by
`readframes`.  `none` at the use site models `wave.open` itself raising. -/
structure WavFile where
  sampwidth : Nat
  rate : Nat
  frames : List (Fin 256)
deriving DecidableEq

/-- An input file, modelled by its path together with how the two decoders
behave on it. -/
structure AudioFile where
  path : String
  librosa : LibrosaResult
  wav : Option WavFile
deriving DecidableEq

/-- `np.frombuffer(data, dtype=np.int16)`: reinterpret the byte payload as
little-endian two's-complement 16-bit signed integers. -/
def int16OfBytes : List (Fin 256) → List Int
  | lo :: hi :: rest =>
      (let u : Nat := (lo : Nat) + 256 * (hi : Nat)
       if u < 32768 then (u : Int) else (u : Int) - 65536) :: int16OfBytes rest
  | _ => []

/-- `AudioPreprocessor._load_audio_file`.  Librosa first; on failure the wave
fallback rescales 8-bit unsigned via `(sample - 128) / 128.0` and 16-bit
signed via `sample / 32768.0`; other widths hit the `else` branch and return
`(None, 0)`.  `np.frombuffer` with `int16` on an odd-length buffer raises,
which the outer except turns into `(None, 0)` as well. -/
def _load_audio_file (f : AudioFile) : Option (List ℚ) × Nat :=
  match f.librosa with
  | .ok samples rate => (some samples, rate)
  | .fails =>
    match f.wav with
    | none => (none, 0)
    | some w =>
      if w.sampwidth = 1 then
        (some (w.frames.map (fun b => ((b.val : ℚ) - 128) / 128)), w.rate)
      else if w.sampwidth = 2 then
        if w.frames.length % 2 = 0 then
          (some ((int16OfBytes w.frames).map (fun s : ℤ => (s : ℚ) / 32768)), w.rate)
        else (none, 0)
      else (none, 0)

/-! ## Feature extraction (`_analyze_audio_for_speech` and helpers,
audio_processor.py:117-293) -/

/-- `np.sign` on a float sample. -/
def signQ (x : ℚ) : Int :=
  if 0 < x then 1 else if x < 0 then -1 else 0

/-- Count of adjacent unequal entries: `np.sum(np.diff(v) != 0)`. -/
def countAdjacentChanges : List Int → Nat
  | a :: b :: rest => (if a ≠ b then 1 else 0) + countAdjacentChanges (b :: rest)
  | _ => 0

/-- `np.sum(np.diff(np.sign(audio_data)) != 0)` (line 136). -/
def zeroCrossings (xs : List ℚ) : Nat :=
  countAdjacentChanges (xs.map signQ)

/-- `np.max(np.abs(x))`: raises `ValueError` on a zero-size array, otherwise
returns the maximum absolute value. -/
def npMaxAbs (xs : List ℚ) : Except String ℚ :=
  match xs with
  | [] => .error "zero-size array to reduction operation maximum which has no identity"
  | x :: rest => .ok (rest.foldl (fun m a => max m |a|) |x|)

/-- Results of the external library computations inside feature extraction:
the float square root in the RMS computation (never raises), and the three
librosa-based sub-extractors, each of which may raise inside its own
try/except. -/
structure LibComputed where
  rms_energy : ℚ
  spectral : Except String SpectralFeatures
  temporal : Except String TemporalFeatures
  vad : Except String VadResult

/-- `AudioPreprocessor._extract_spectral_features` (lines 164-206): the body
is one librosa computation; on an exception the handler returns `{}`. -/
def _extract_spectral_features (compute : Except String SpectralFeatures) :
    Option SpectralFeatures :=
  compute.toOption

/-- `AudioPreprocessor._analyze_temporal_characteristics` (lines 208-247):
same shape, `{}` on an internal exception. -/
def _analyze_temporal_characteristics (compute : Except String TemporalFeatures) :
    Option TemporalFeatures :=
  compute.toOption

/-- `AudioPreprocessor._voice_activity_detection` (lines 249-293):
same shape, `{}` on an internal exception. -/
def _voice_activity_detection (compute : Except String VadResult) :
    Option VadResult :=
  compute.toOption

/-- `AudioPreprocessor._analyze_audio_for_speech` (lines 117-162).
The top-level try first computes `duration = len(audio_data) / sample_rate`
(raising `ZeroDivisionError` when the rate is 0), then the RMS energy
(`np.mean` on an empty array only warns), then
`max_amplitude = np.max(np.abs(audio_data))` — which raises on an empty
buffer — then the zero-crossing rate.  The first exception reaches the
handler, which returns `{'error': str(e)}`.  The three sub-extractors
swallow their own faults and can only contribute `{}`. -/
def _analyze_audio_for_speech (samples : List ℚ) (rate : Nat) (lib : LibComputed) :
    AnalysisResults :=
  if rate = 0 then errorReport "division by zero"
  else
    match npMaxAbs samples with
    | .error e => errorReport e
    | .ok maxAmp =>
      { error := none
        duration := some ((samples.length : ℚ) / (rate : ℚ))
        rms_energy := some lib.rms_energy
        max_amplitude := some maxAmp
        zero_crossing_rate := some ((zeroCrossings samples : ℚ) / (samples.length : ℚ))
        spectral_features := _extract_spectral_features lib.spectral
        temporal_features := _analyze_temporal_characteristics lib.temporal
        vad_results := _voice_activity_detection lib.vad }

/-! ## Enhancement (`_enhance_audio_quality`, audio_processor.py:356-401) -/

/-- `np.max(np.abs(xs))` as a total function (used below only on buffers the
source reaches with a nonempty array). -/
def peakAbs (xs : List ℚ) : ℚ :=
  xs.foldr (fun a m => max |a| m) 0

/-- The peak-normalization step (lines 372-374):
`if np.max(np.abs(x)) > 0: x = x / np.max(np.abs(x)) * 0.95`. -/
def normalizeStep (xs : List ℚ) : List ℚ :=
  if 0 < peakAbs xs then xs.map (fun s => s / peakAbs xs * (95/100)) else xs

/-- `AudioPreprocessor._enhance_audio_quality`.  On an empty buffer the
`np.max` call raises and the handler returns the original path.  Otherwise
the buffer is normalized, high-pass filtered when 80 Hz is below Nyquist
(the scipy filter is an oracle parameter), written to a fresh temp file, and
that temp path is returned. -/
def _enhance_audio_quality (samples : List ℚ) (rate : Nat)
    (sosfilt : List ℚ → List ℚ) (origPath tempPath : String) : String :=
  match samples with
  | [] => origPath
  | _ :: _ =>
    let enhanced := normalizeStep samples
    let _written := if (80 : ℚ) < (rate : ℚ) / 2 then sosfilt enhanced else enhanced
    tempPath

/-! ## Pipeline (`preprocess_audio`, audio_processor.py:34-74) -/

/-- `AudioPreprocessor.preprocess_audio`: load, bail out with
`(path, False, {'error': 'Failed to load audio'})` when the loader returned
`None`, otherwise analyze, decide, and enhance only when speech was found. -/
def preprocess_audio (f : AudioFile) (lib : LibComputed)
    (sosfilt : List ℚ → List ℚ) (tempPath : String) :
    String × Bool × AnalysisResults :=
  match _load_audio_file f with
  | (none, _) => (f.path, false, errorReport "Failed to load audio")
  | (some samples, rate) =>
    let results := _analyze_audio_for_speech samples rate lib
    let has_speech := _determine_speech_presence results
    let processed := if has_speech then
        _enhance_audio_quality samples rate sosfilt f.path tempPath
      else f.path
    (processed, has_speech, results)

/-- The `except` handler of `preprocess_audio` (lines 72-74): an unexpected
exception anywhere in the body yields `(file_path, True, {'error': str(e)})`
— the fail-open default. -/
def preprocess_audio_onException (path e : String) : String × Bool × AnalysisResults :=
  (path, true, errorReport e)

/-! ## Transcription post-processing (`postprocess_transcription`,
audio_processor.py:420-471)

Python strings are embedded as `List Char` so that every operation is a
structural, kernel-evaluable function.  `pyReplace`, `pySplit`, `pyStrip`
and `pyCapitalizeL` implement the semantics of the Python builtins
`str.replace` (all non-overlapping occurrences, left to right), `str.split`
with a separator, `str.strip`, and `str.capitalize` (on ASCII text, which is
all this table produces).  The recursive scans take an explicit fuel
argument, initialised to the string length, which bounds the number of scan
steps; fuel never runs out on a nonempty pattern/separator. -/

/-- Python whitespace for `str.strip`. -/
def isPySpace (c : Char) : Bool :=
  c = ' ' || c = '\t' || c = '\n' || c = '\x0b' || c = '\x0c' || c = '\r'

/-- Python `str.strip()`: drop leading and trailing whitespace. -/
def pyStrip (s : List Char) : List Char :=
  ((s.dropWhile isPySpace).reverse.dropWhile isPySpace).reverse

/-- Scanning loop of `str.replace`: at each position, if the pattern is a
prefix, emit the replacement and skip the pattern, else keep the character. -/
def replaceGo (pat rep : List Char) : Nat → List Char → List Char
  | _, [] => []
  | 0, s => s
  | fuel + 1, c :: rest =>
    if pat.isPrefixOf (c :: rest) then
      rep ++ replaceGo pat rep fuel (rest.drop (pat.length - 1))
    else c :: replaceGo pat rep fuel rest

/-- Python `s.replace(pat, rep)` for a nonempty pattern (every pattern in the
source's table is nonempty; Python's empty-pattern behaviour is not used). -/
def pyReplace (s pat rep : List Char) : List Char :=
  if pat = [] then s else replaceGo pat rep s.length s

/-- Scanning loop of `str.split(sep)`: accumulate the current token
(reversed) and cut it at each non-overlapping occurrence of the separator. -/
def splitGo (sep : List Char) : Nat → List Char → List Char → List (List Char)
  | _, acc, [] => [acc.reverse]
  | 0, acc, s => [acc.reverse ++ s]
  | fuel + 1, acc, c :: rest =>
    if sep.isPrefixOf (c :: rest) then
      acc.reverse :: splitGo sep fuel [] (rest.drop (sep.length - 1))
    else splitGo sep fuel (c :: acc) rest

/-- Python `s.split(sep)` for a nonempty separator. -/
def pySplit (s sep : List Char) : List (List Char) :=
  if sep = [] then [s] else splitGo sep s.length [] s

/-- Python `sep.join(parts)`. -/
def pyJoin (sep : List Char) (parts : List (List Char)) : List Char :=
  (parts.intersperse sep).flatten

/-- ASCII uppercasing of one character, as Python's `str.capitalize` does on
the first character of an ASCII string. -/
def pyUpperChar (c : Char) : Char :=
  if 'a' ≤ c ∧ c ≤ 'z' then Char.ofNat (c.toNat - 32) else c

/-- ASCII lowercasing of one character, as Python's `str.capitalize` does on
every character after the first. -/
def pyLowerChar (c : Char) : Char :=
  if 'A' ≤ c ∧ c ≤ 'Z' then Char.ofNat (c.toNat + 32) else c

/-- Python `str.capitalize`: first character uppercased, every following
character lowercased. -/
def pyCapitalizeL : List Char → List Char
  | [] => []
  | c :: cs => pyUpperChar c :: cs.map pyLowerChar

/-- The replacement table of `postprocess_transcription` (lines 439-455) in
its insertion order (Python dicts iterate in insertion order). -/
def replacements : List (List Char × List Char) :=
  [("pie torch".toList, "PyTorch".toList),
   ("tensorflow".toList, "TensorFlow".toList),
   ("fast API".toList, "FastAPI".toList),
   ("pie audio".toList, "PyAudio".toList),
   ("num pie".toList, "NumPy".toList),
   ("pandas".toList, "pandas".toList),
   ("jupiter".toList, "Jupyter".toList),
   ("get hub".toList, "GitHub".toList),
   ("VS code".toList, "VS Code".toList),
   ("docker".toList, "Docker".toList),
   ("there".toList, "their".toList),
   ("its".toList, "it's".toList)]

/-- `for wrong, correct in replacements.items(): text = text.replace(...)`
(lines 458-459). -/
def applyReplacements (t : List Char) : List Char :=
  replacements.foldl (fun acc p => pyReplace acc p.1 p.2) t

/-- The per-segment step `s.strip().capitalize() if s else s` (line 463). -/
def processSegment (s : List Char) : List Char :=
  if s = [] then s else pyCapitalizeL (pyStrip s)

/-- `AudioPreprocessor.postprocess_transcription` (lines 420-471): empty
input returned unchanged; otherwise strip, apply the replacement table,
split on `". "`, capitalize each nonempty segment, and re-join with `". "`.
The unused `context` parameter of the source is omitted. -/
def postprocess_transcription (transcription : List Char) : List Char :=
  if transcription = [] then transcription
  else
    let processed := applyReplacements (pyStrip transcription)
    let sentences := pySplit processed ". ".toList
    pyJoin ". ".toList (sentences.map processSegment)

/-! ## Helper lemmas -/

/-- On a nonempty buffer with a nonzero rate, `_analyze_audio_for_speech`
reaches no exception and returns the fully populated report. -/
theorem analyze_ok (x : ℚ) (xs : List ℚ) (rate : Nat) (lib : LibComputed)
    (hr : rate ≠ 0) :
    _analyze_audio_for_speech (x :: xs) rate lib =
      { error := none
        duration := some (((x :: xs).length : ℚ) / (rate : ℚ))
        rms_energy := some lib.rms_energy
        max_amplitude := some (xs.foldl (fun m a => max m |a|) |x|)
        zero_crossing_rate :=
          some ((zeroCrossings (x :: xs) : ℚ) / ((x :: xs).length : ℚ))
        spectral_features := lib.spectral.toOption
        temporal_features := lib.temporal.toOption
        vad_results := lib.vad.toOption } := by
  simp [_analyze_audio_for_speech, hr, npMaxAbs, _extract_spectral_features,
    _analyze_temporal_characteristics, _voice_activity_detection]

theorem peakAbs_nonneg (xs : List ℚ) : 0 ≤ peakAbs xs := by
  induction xs with
  | nil => simp [peakAbs]
  | cons a t ih =>
    simp only [peakAbs, List.foldr_cons] at *
    exact le_trans ih (le_max_right _ _)

theorem abs_le_peakAbs {x : ℚ} {xs : List ℚ} (h : x ∈ xs) : |x| ≤ peakAbs xs := by
  induction xs with
  | nil => cases h
  | cons a t ih =>
    simp only [peakAbs, List.foldr_cons] at *
    rcases List.mem_cons.mp h with rfl | hm
    · exact le_max_left _ _
    · exact le_trans (ih hm) (le_max_right _ _)

theorem peakAbs_pos {xs : List ℚ} (h : ∃ x ∈ xs, x ≠ 0) : 0 < peakAbs xs := by
  obtain ⟨x, hx, hne⟩ := h
  exact lt_of_lt_of_le (abs_pos.mpr hne) (abs_le_peakAbs hx)

theorem peakAbs_map_scale (xs : List ℚ) (k : ℚ) (hk : 0 ≤ k) :
    peakAbs (xs.map (fun s => s * k)) = peakAbs xs * k := by
  induction xs with
  | nil => simp [peakAbs]
  | cons a t ih =>
    simp only [peakAbs, List.map_cons, List.foldr_cons] at *
    rw [ih, abs_mul, abs_of_nonneg hk, max_mul_of_nonneg _ _ hk]

theorem peakAbs_eq_zero {xs : List ℚ} (h : ∀ x ∈ xs, x = 0) : peakAbs xs = 0 := by
  induction xs with
  | nil => simp [peakAbs]
  | cons a t ih =>
    simp only [peakAbs, List.foldr_cons] at *
    rw [h a (List.mem_cons_self a t), ih fun x hx => h x (List.mem_cons_of_mem a hx)]
    simp

theorem int16OfBytes_bounds :
    ∀ (bs : List (Fin 256)), ∀ s ∈ int16OfBytes bs, -32768 ≤ s ∧ s ≤ 32767
  | [] => by simp [int16OfBytes]
  | [_] => by simp [int16OfBytes]
  | lo :: hi :: rest => by
    intro s hs
    rw [int16OfBytes] at hs
    rcases List.mem_cons.mp hs with rfl | hm
    · have hlo : (lo : Nat) < 256 := lo.isLt
      have hhi : (hi : Nat) < 256 := hi.isLt
      dsimp only
      split <;> rename_i hu <;> constructor <;> omega
    · exact int16OfBytes_bounds rest s hm

/-! ## Claim theorems -/

/-- C1: for a report with no error tag whose duration, RMS energy, temporal
activity ratio and VAD voice ratio are present, `_determine_speech_presence`
returns `false` iff duration < 0.2 s, or RMS energy < 0.002, or activity
ratio < 0.15, or voice ratio < 0.10; the zero-crossing-rate and
spectral-centroid checks never contribute to the verdict, and if none of the
four hard gates fires the result is `true`. -/
theorem determine_false_iff_hard_gates (r : AnalysisResults) (d e : ℚ)
    (tf : TemporalFeatures) (vr : VadResult)
    (hne : r.error = none) (hd : r.duration = some d) (he : r.rms_energy = some e)
    (ht : r.temporal_features = some tf) (hv : r.vad_results = some vr) :
    (_determine_speech_presence r = false ↔
      (d < 1/5 ∨ e < 1/500 ∨ tf.activity_ratio < 3/20 ∨ vr.voice_ratio < 1/10)) := by
  simp only [_determine_speech_presence, hne, hd, he, ht, hv, Option.isSome_none,
    Option.getD_some, Option.map_some', Bool.false_eq_true, if_false]
  split_ifs <;> simp_all

/-- C1 witness: a concrete report whose only failing hard gate is the
duration gate. -/
theorem determine_false_iff_hard_gates_witness :
    (_determine_speech_presence
      { error := none, duration := some (1/10), rms_energy := some 1,
        max_amplitude := some 1, zero_crossing_rate := some (1/10),
        spectral_features := none,
        temporal_features := some ⟨1/2, 0, 1, 2⟩,
        vad_results := some ⟨1/2, 1, 2, 0⟩ } = false ↔
      ((1/10 : ℚ) < 1/5 ∨ (1 : ℚ) < 1/500 ∨ (1/2 : ℚ) < 3/20 ∨ (1/2 : ℚ) < 1/10)) :=
  determine_false_iff_hard_gates _ (1/10) 1 ⟨1/2, 0, 1, 2⟩ ⟨1/2, 1, 2, 0⟩
    rfl rfl rfl rfl rfl

/-- C2: a report whose dict contains the `'error'` key makes
`_determine_speech_presence` return `true` (fail-open), whatever the other
fields hold. -/
theorem determine_error_defaults_true (r : AnalysisResults) (e : String)
    (h : r.error = some e) : _determine_speech_presence r = true := by
  simp [_determine_speech_presence, h]

/-- C2 witness: the error-only report produced by a failed analysis. -/
theorem determine_error_defaults_true_witness :
    _determine_speech_presence (errorReport "Audio analysis failed") = true :=
  determine_error_defaults_true _ "Audio analysis failed" rfl

/-- C6: the duration gate is a strict `<` against 0.2 s: a report with
duration exactly 0.2 s and every other gate satisfied is accepted, while a
report with duration 0.199 s is rejected outright. -/
theorem duration_gate_is_strict :
    (∀ (r : AnalysisResults) (e : ℚ) (tf : TemporalFeatures) (vr : VadResult),
      r.error = none → r.duration = some (1/5) →
      r.rms_energy = some e → 1/500 ≤ e →
      r.temporal_features = some tf → 3/20 ≤ tf.activity_ratio →
      r.vad_results = some vr → 1/10 ≤ vr.voice_ratio →
      _determine_speech_presence r = true)
  ∧ (∀ (r : AnalysisResults), r.error = none → r.duration = some (199/1000) →
      _determine_speech_presence r = false) := by
  constructor
  · intro r e tf vr hne hd he hee ht hta hv hvr
    simp only [_determine_speech_presence, hne, hd, he, ht, hv, Option.isSome_none,
      Option.getD_some, Option.map_some', Bool.false_eq_true, if_false]
    rw [if_neg (by norm_num), if_neg (not_lt.mpr hee), if_neg (not_lt.mpr hta),
      if_neg (not_lt.mpr hvr)]
  · intro r hne hd
    simp only [_determine_speech_presence, hne, hd, Option.isSome_none,
      Option.getD_some, Bool.false_eq_true, if_false]
    rw [if_pos (by norm_num)]

/-- C6 witness: both halves at concrete reports. -/
theorem duration_gate_is_strict_witness :
    _determine_speech_presence
      { error := none, duration := some (1/5), rms_energy := some 1,
        max_amplitude := some 1, zero_crossing_rate := some (1/10),
        spectral_features := none,
        temporal_features := some ⟨1/2, 0, 1, 2⟩,
        vad_results := some ⟨1/2, 1, 2, 0⟩ } = true
  ∧ _determine_speech_presence
      { error := none, duration := some (199/1000), rms_energy := some 1,
        max_amplitude := some 1, zero_crossing_rate := some (1/10),
        spectral_features := none,
        temporal_features := some ⟨1/2, 0, 1, 2⟩,
        vad_results := some ⟨1/2, 1, 2, 0⟩ } = false :=
  ⟨duration_gate_is_strict.1 _ 1 ⟨1/2, 0, 1, 2⟩ ⟨1/2, 1, 2, 0⟩ rfl rfl rfl
      (by norm_num) rfl (by norm_num) rfl (by norm_num),
    duration_gate_is_strict.2 _ rfl rfl⟩

/-- C3 counterexample: a clip that loads fine and would be accepted
(first conjunct) is rejected once the temporal-characteristics analysis
faults (second conjunct): the empty temporal dict defaults the activity
ratio to 0, which fails the hard activity gate. -/
theorem analysis_fault_rejects_cex :
    _determine_speech_presence (_analyze_audio_for_speech [1] 1
      { rms_energy := 1, spectral := .ok ⟨1000, 2000, 500, [], []⟩,
        temporal := .ok ⟨1/2, 0, 1, 2⟩, vad := .ok ⟨1/2, 1, 2, 0⟩ }) = true
  ∧ _determine_speech_presence (_analyze_audio_for_speech [1] 1
      { rms_energy := 1, spectral := .ok ⟨1000, 2000, 500, [], []⟩,
        temporal := .error "librosa.util.frame failed",
        vad := .ok ⟨1/2, 1, 2, 0⟩ }) = false := by
  constructor <;>
  · rw [analyze_ok _ _ _ _ one_ne_zero]
    norm_num [_determine_speech_presence, Except.toOption]

/-- C3 amended: a fault inside spectral-feature extraction indeed never
causes a `false` verdict (second conjunct), but a fault inside the
temporal-characteristics analysis rejects the clip whenever the duration and
RMS gates pass, because the empty sub-record defaults the activity ratio to
0 below the hard 0.15 gate (first conjunct). -/
theorem analysis_fault_gates :
    (∀ (samples : List ℚ) (rate : Nat) (lib : LibComputed) (msg : String),
      samples ≠ [] → rate ≠ 0 →
      1/5 ≤ (samples.length : ℚ) / (rate : ℚ) → 1/500 ≤ lib.rms_energy →
      lib.temporal = .error msg →
      _determine_speech_presence (_analyze_audio_for_speech samples rate lib) = false)
  ∧ (∀ (samples : List ℚ) (rate : Nat) (lib : LibComputed) (msg : String)
      (tf : TemporalFeatures) (vr : VadResult),
      samples ≠ [] → rate ≠ 0 →
      1/5 ≤ (samples.length : ℚ) / (rate : ℚ) → 1/500 ≤ lib.rms_energy →
      lib.spectral = .error msg → lib.temporal = .ok tf → 3/20 ≤ tf.activity_ratio →
      lib.vad = .ok vr → 1/10 ≤ vr.voice_ratio →
      _determine_speech_presence (_analyze_audio_for_speech samples rate lib) = true) := by
  constructor
  · intro samples rate lib msg hs hr hdur hrms htemp
    obtain ⟨x, xs, rfl⟩ := List.exists_cons_of_ne_nil hs
    rw [analyze_ok x xs rate lib hr]
    simp only [_determine_speech_presence, Option.isSome_none, Option.getD_some,
      Option.map_some', htemp, Except.toOption, Option.map_none', Option.getD_none,
      Bool.false_eq_true, if_false]
    rw [if_neg (not_lt.mpr hdur), if_neg (not_lt.mpr hrms)]
    norm_num
  · intro samples rate lib msg tf vr hs hr hdur hrms hspec htemp hta hv hvr
    obtain ⟨x, xs, rfl⟩ := List.exists_cons_of_ne_nil hs
    rw [analyze_ok x xs rate lib hr]
    simp only [_determine_speech_presence, Option.isSome_none, Option.getD_some,
      Option.map_some', htemp, hv, Except.toOption, Bool.false_eq_true, if_false]
    rw [if_neg (not_lt.mpr hdur), if_neg (not_lt.mpr hrms), if_neg (not_lt.mpr hta),
      if_neg (not_lt.mpr hvr)]

/-- C3 amended witness: both halves at concrete one-sample clips. -/
theorem analysis_fault_gates_witness :
    _determine_speech_presence (_analyze_audio_for_speech [1] 1
      { rms_energy := 1, spectral := .ok ⟨1000, 2000, 500, [], []⟩,
        temporal := .error "frame error", vad := .ok ⟨1/2, 1, 2, 0⟩ }) = false
  ∧ _determine_speech_presence (_analyze_audio_for_speech [1] 1
      { rms_energy := 1, spectral := .error "stft error",
        temporal := .ok ⟨1/2, 0, 1, 2⟩, vad := .ok ⟨1/2, 1, 2, 0⟩ }) = true :=
  ⟨analysis_fault_gates.1 [1] 1 _ "frame error" (by simp) one_ne_zero
      (by norm_num) (by norm_num) rfl,
    analysis_fault_gates.2 [1] 1 _ "stft error" ⟨1/2, 0, 1, 2⟩ ⟨1/2, 1, 2, 0⟩
      (by simp) one_ne_zero (by norm_num) (by norm_num) rfl rfl (by norm_num)
      rfl (by norm_num)⟩

/-- C4 counterexample: with a fault inside spectral-feature extraction the
returned report has its spectral sub-features emptied but the error tag is
NOT populated, contradicting the claim that any internal sub-computation
fault populates the error tag. -/
theorem extract_fault_error_tag_cex :
    (_analyze_audio_for_speech [1] 1
      { rms_energy := 1, spectral := .error "librosa stft failed",
        temporal := .ok ⟨1/2, 0, 1, 2⟩, vad := .ok ⟨1/2, 1, 2, 0⟩ }).error = none
  ∧ (_analyze_audio_for_speech [1] 1
      { rms_energy := 1, spectral := .error "librosa stft failed",
        temporal := .ok ⟨1/2, 0, 1, 2⟩,
        vad := .ok ⟨1/2, 1, 2, 0⟩ }).spectral_features = none := by
  constructor <;>
  · rw [analyze_ok _ _ _ _ one_ne_zero]
    try simp [Except.toOption]

/-- C4 amended: for valid buffers (length > 0, rate > 0) the extraction
returns a report with NO error tag, a fault inside any sub-feature
computation only empties that sub-feature; the error tag is populated
exactly by a top-level fault, e.g. the `np.max` `ValueError` on an empty
buffer. -/
theorem extract_fault_handling :
    (∀ (samples : List ℚ) (rate : Nat) (lib : LibComputed),
      samples ≠ [] → rate ≠ 0 →
      (_analyze_audio_for_speech samples rate lib).error = none
      ∧ (∀ m, lib.spectral = .error m →
          (_analyze_audio_for_speech samples rate lib).spectral_features = none)
      ∧ (∀ m, lib.temporal = .error m →
          (_analyze_audio_for_speech samples rate lib).temporal_features = none)
      ∧ (∀ m, lib.vad = .error m →
          (_analyze_audio_for_speech samples rate lib).vad_results = none))
  ∧ (∀ (rate : Nat) (lib : LibComputed), rate ≠ 0 →
      _analyze_audio_for_speech [] rate lib =
        errorReport "zero-size array to reduction operation maximum which has no identity") := by
  constructor
  · intro samples rate lib hs hr
    obtain ⟨x, xs, rfl⟩ := List.exists_cons_of_ne_nil hs
    rw [analyze_ok x xs rate lib hr]
    refine ⟨rfl, ?_, ?_, ?_⟩ <;> (intro m hm; simp [hm, Except.toOption])
  · intro rate lib hr
    simp [_analyze_audio_for_speech, hr, npMaxAbs]

/-- C4 amended witness: a spectral fault on a valid one-sample buffer, and a
top-level fault on the empty buffer. -/
theorem extract_fault_handling_witness :
    (_analyze_audio_for_speech [1] 1
      { rms_energy := 1, spectral := .error "stft failed",
        temporal := .ok ⟨1/2, 0, 1, 2⟩, vad := .ok ⟨1/2, 1, 2, 0⟩ }).error = none
  ∧ (_analyze_audio_for_speech [1] 1
      { rms_energy := 1, spectral := .error "stft failed",
        temporal := .ok ⟨1/2, 0, 1, 2⟩,
        vad := .ok ⟨1/2, 1, 2, 0⟩ }).spectral_features = none
  ∧ _analyze_audio_for_speech [] 16000
      { rms_energy := 0, spectral := .error "e", temporal := .error "e",
        vad := .error "e" } =
      errorReport "zero-size array to reduction operation maximum which has no identity" :=
  ⟨(extract_fault_handling.1 [1] 1 _ (by simp) one_ne_zero).1,
    (extract_fault_handling.1 [1] 1 _ (by simp) one_ne_zero).2.1 "stft failed" rfl,
    extract_fault_handling.2 16000 _ (by norm_num)⟩

/-- C5 counterexample: a file whose decode yields zero samples is NOT turned
into a load error — the loader hands back the empty buffer — and the
pipeline does not halt: analysis proceeds, faults on the empty buffer, and
the fail-open decision forwards the clip with `has_speech = true`. -/
theorem zero_length_decode_cex :
    _load_audio_file ⟨"clip.wav", .ok [] 16000, none⟩ = (some [], 16000)
  ∧ preprocess_audio ⟨"clip.wav", .ok [] 16000, none⟩
      { rms_energy := 0, spectral := .error "empty", temporal := .error "empty",
        vad := .error "empty" } id "enhanced.wav"
    = ("clip.wav", true,
        errorReport "zero-size array to reduction operation maximum which has no identity") := by
  constructor
  · rfl
  · simp [preprocess_audio, _load_audio_file, _analyze_audio_for_speech, npMaxAbs,
      _determine_speech_presence, errorReport, _enhance_audio_quality]

/-- C5 amended: a zero-length decode is returned by the loader as an empty
buffer (not a load failure); `preprocess_audio` then proceeds, the basic
analysis faults on the empty buffer (`np.max` of a zero-size array), the
report degenerates to an error-only dict, and the fail-open default forwards
the clip: the original path is returned with `has_speech = true`. -/
theorem zero_length_decode_fail_open :
    (∀ (path : String) (rate : Nat) (wv : Option WavFile),
      _load_audio_file ⟨path, .ok [] rate, wv⟩ = (some [], rate))
  ∧ (∀ (path : String) (rate : Nat) (wv : Option WavFile) (lib : LibComputed)
      (sos : List ℚ → List ℚ) (tmp : String), rate ≠ 0 →
      preprocess_audio ⟨path, .ok [] rate, wv⟩ lib sos tmp =
        (path, true,
          errorReport "zero-size array to reduction operation maximum which has no identity")) := by
  constructor
  · intro path rate wv
    rfl
  · intro path rate wv lib sos tmp hr
    simp [preprocess_audio, _load_audio_file, _analyze_audio_for_speech, hr, npMaxAbs,
      _determine_speech_presence, errorReport, _enhance_audio_quality]

/-- C5 amended witness: a concrete zero-length decode at 8 kHz. -/
theorem zero_length_decode_fail_open_witness :
    preprocess_audio ⟨"silent.wav", .ok [] 8000, none⟩
      { rms_energy := 1, spectral := .error "x", temporal := .error "x",
        vad := .error "x" } id "enhanced.wav" =
      ("silent.wav", true,
        errorReport "zero-size array to reduction operation maximum which has no identity") :=
  zero_length_decode_fail_open.2 "silent.wav" 8000 none _ id "enhanced.wav" (by norm_num)

/-- C7: in the raw-PCM fallback, 8-bit unsigned samples are rescaled via
`(s - 128) / 128`, 16-bit signed samples via `s / 32768`, every sample the
fallback produces lies in `[-1, 1]`, and any other sample width is a
reported load failure. -/
theorem pcm_fallback (f : AudioFile) (w : WavFile)
    (hl : f.librosa = .fails) (hw : f.wav = some w) :
    (w.sampwidth = 1 →
      _load_audio_file f =
        (some (w.frames.map fun b => ((b.val : ℚ) - 128) / 128), w.rate))
  ∧ (w.sampwidth = 2 → w.frames.length % 2 = 0 →
      _load_audio_file f =
        (some ((int16OfBytes w.frames).map fun s : ℤ => (s : ℚ) / 32768), w.rate))
  ∧ (w.sampwidth ≠ 1 → w.sampwidth ≠ 2 → _load_audio_file f = (none, 0))
  ∧ (∀ (samples : List ℚ) (r : Nat), _load_audio_file f = (some samples, r) →
      ∀ x ∈ samples, -1 ≤ x ∧ x ≤ 1) := by
  have range8 : ∀ b : Fin 256, -1 ≤ ((b.val : ℚ) - 128) / 128
      ∧ ((b.val : ℚ) - 128) / 128 ≤ 1 := by
    intro b
    have hb : (b.val : ℚ) ≤ 255 := by
      exact_mod_cast Nat.le_of_lt_succ b.isLt
    have hb0 : (0 : ℚ) ≤ (b.val : ℚ) := by positivity
    constructor
    · rw [le_div_iff₀ (by norm_num : (0:ℚ) < 128)]
      linarith
    · rw [div_le_one (by norm_num : (0:ℚ) < 128)]
      linarith
  have range16 : ∀ s : Int, -32768 ≤ s → s ≤ 32767 →
      -1 ≤ (s : ℚ) / 32768 ∧ (s : ℚ) / 32768 ≤ 1 := by
    intro s h1 h2
    have h1' : (-32768 : ℚ) ≤ (s : ℚ) := by exact_mod_cast h1
    have h2' : (s : ℚ) ≤ 32767 := by exact_mod_cast h2
    constructor
    · rw [le_div_iff₀ (by norm_num : (0:ℚ) < 32768)]
      linarith
    · rw [div_le_one (by norm_num : (0:ℚ) < 32768)]
      linarith
  have case1 : w.sampwidth = 1 →
      _load_audio_file f =
        (some (w.frames.map fun b => ((b.val : ℚ) - 128) / 128), w.rate) := by
    intro h1
    simp [_load_audio_file, hl, hw, h1]
  have case2 : w.sampwidth = 2 → w.frames.length % 2 = 0 →
      _load_audio_file f =
        (some ((int16OfBytes w.frames).map fun s : ℤ => (s : ℚ) / 32768), w.rate) := by
    intro h2 hev
    have h1 : w.sampwidth ≠ 1 := by omega
    simp [_load_audio_file, hl, hw, h1, h2, hev]
  have case3 : w.sampwidth ≠ 1 → w.sampwidth ≠ 2 → _load_audio_file f = (none, 0) := by
    intro h1 h2
    simp [_load_audio_file, hl, hw, h1, h2]
  have case2odd : w.sampwidth = 2 → w.frames.length % 2 ≠ 0 →
      _load_audio_file f = (none, 0) := by
    intro h2 hev
    have h1 : w.sampwidth ≠ 1 := by omega
    simp [_load_audio_file, hl, hw, h1, h2, hev]
  refine ⟨case1, case2, case3, ?_⟩
  · intro samples r hload x hx
    by_cases h1 : w.sampwidth = 1
    · rw [case1 h1] at hload
      rw [Prod.mk.injEq, Option.some.injEq] at hload
      obtain ⟨hs, -⟩ := hload
      rw [← hs] at hx
      obtain ⟨b, -, rfl⟩ := List.mem_map.mp hx
      exact range8 b
    · by_cases h2 : w.sampwidth = 2
      · by_cases hev : w.frames.length % 2 = 0
        · rw [case2 h2 hev] at hload
          rw [Prod.mk.injEq, Option.some.injEq] at hload
          obtain ⟨hs, -⟩ := hload
          rw [← hs] at hx
          obtain ⟨s, hsmem, rfl⟩ := List.mem_map.mp hx
          obtain ⟨hlo, hhi⟩ := int16OfBytes_bounds w.frames s hsmem
          exact range16 s hlo hhi
        · rw [case2odd h2 hev] at hload
          simp at hload
      · rw [case3 h1 h2] at hload
        simp at hload

/-- C7 witness: an 8-bit unsigned PCM file with samples 0 and 255 decodes
through the fallback to `[-1, 127/128] ⊆ [-1, 1]`. -/
theorem pcm_fallback_witness :
    _load_audio_file ⟨"clip.wav", .fails, some ⟨1, 8000, [(0 : Fin 256), 255]⟩⟩ =
      (some [(-1 : ℚ), 127/128], 8000) := by
  have h := (pcm_fallback ⟨"clip.wav", .fails, some ⟨1, 8000, [0, 255]⟩⟩
      ⟨1, 8000, [0, 255]⟩ rfl rfl).1 rfl
  rw [h]
  have h0 : (((0 : Fin 256) : Nat) : ℚ) = 0 := rfl
  have h255 : (((255 : Fin 256) : Nat) : ℚ) = 255 := rfl
  norm_num [h0, h255]

/-- C8: the enhancer's peak-normalization step is idempotent at 0.95: one
application of the step to a buffer with a nonzero sample brings the peak
absolute sample to exactly 0.95, a second application changes nothing, and
an all-zero buffer is passed through unchanged. -/
theorem enhance_normalize_idempotent (xs : List ℚ) :
    ((∃ x ∈ xs, x ≠ 0) →
      peakAbs (normalizeStep xs) = 95/100
      ∧ normalizeStep (normalizeStep xs) = normalizeStep xs)
  ∧ ((∀ x ∈ xs, x = 0) → normalizeStep xs = xs) := by
  constructor
  · intro h
    have hm : 0 < peakAbs xs := peakAbs_pos h
    have hmap : normalizeStep xs = xs.map (fun s => s * ((95/100) / peakAbs xs)) := by
      rw [normalizeStep, if_pos hm]
      congr 1
      funext s
      rw [div_mul_eq_mul_div, mul_div_assoc]
    have hpeak : peakAbs (normalizeStep xs) = 95/100 := by
      rw [hmap, peakAbs_map_scale _ _ (by positivity), mul_comm,
        div_mul_cancel₀ _ (ne_of_gt hm)]
    refine ⟨hpeak, ?_⟩
    have hcc : ∀ s : ℚ, s / (95/100) * (95/100) = s :=
      fun s => div_mul_cancel₀ s (by norm_num)
    generalize hys : normalizeStep xs = ys at hpeak ⊢
    simp only [normalizeStep, hpeak]
    rw [if_pos (by norm_num : (0:ℚ) < 95/100)]
    simp [hcc]
  · intro h
    simp [normalizeStep, peakAbs_eq_zero h]

/-- C8 witness: one-sample buffer `[1/2]` and all-zero buffer `[0, 0]`. -/
theorem enhance_normalize_idempotent_witness :
    peakAbs (normalizeStep [1/2]) = 95/100
  ∧ normalizeStep (normalizeStep [1/2]) = normalizeStep [1/2]
  ∧ normalizeStep [0, 0] = [0, 0] :=
  ⟨((enhance_normalize_idempotent [1/2]).1 ⟨1/2, by simp, by norm_num⟩).1,
    ((enhance_normalize_idempotent [1/2]).1 ⟨1/2, by simp, by norm_num⟩).2,
    (enhance_normalize_idempotent [0, 0]).2 (by simp)⟩

/-- C9: when the loader returns no buffer, `preprocess_audio` returns the
original path with `has_speech = false` and an error-only report; the
fail-open `true` default belongs to the exception handler of
`preprocess_audio`, not to the load-failure branch. -/
theorem load_failure_not_forwarded :
    (∀ (f : AudioFile) (lib : LibComputed) (sos : List ℚ → List ℚ) (tmp : String),
      (_load_audio_file f).1 = none →
      preprocess_audio f lib sos tmp = (f.path, false, errorReport "Failed to load audio"))
  ∧ (∀ (path e : String),
      preprocess_audio_onException path e = (path, true, errorReport e)) := by
  constructor
  · intro f lib sos tmp h
    rcases hload : _load_audio_file f with ⟨o, r⟩
    rw [hload] at h
    dsimp only at h
    subst h
    simp [preprocess_audio, hload]
  · intro path e
    rfl

/-- C9 witness: a file both decoders reject. -/
theorem load_failure_not_forwarded_witness :
    preprocess_audio ⟨"broken.ogg", .fails, none⟩
      { rms_energy := 0, spectral := .error "x", temporal := .error "x",
        vad := .error "x" } id "t.wav" =
      ("broken.ogg", false, errorReport "Failed to load audio")
  ∧ preprocess_audio_onException "broken.ogg" "unexpected" =
      ("broken.ogg", true, errorReport "unexpected") :=
  ⟨load_failure_not_forwarded.1 _ _ id "t.wav" rfl,
    load_failure_not_forwarded.2 "broken.ogg" "unexpected"⟩

/-- C10: the per-sentence capitalization lowercases every character after
the first of each segment, so a vocabulary correction that lands anywhere
but a segment's first character is lowercased again: the corrected
"PyTorch" comes out as "pytorch" while the sentence start is capitalized. -/
theorem postprocess_capitalization :
    (∀ s : List Char, (pyCapitalizeL s).drop 1 = (s.drop 1).map pyLowerChar)
  ∧ postprocess_transcription "i love pie torch. its great".toList
      = "I love pytorch. It's great".toList := by
  constructor
  · intro s
    cases s with
    | nil => rfl
    | cons c cs => rfl
  · decide

end AudioProcessor
